import Mathlib

/-
  Verification development for the Hyperflow sentiment-trading agent.

  Shallow embedding of:
  - src/src/scripts/tokenTransfer.ts (decisionLogic module: makeDecision, adjustForDataAge)
  - src/src/lib/aptos.ts (recordSentimentTrade)
  - src/scripts/hypeflow-agent.ts (executeOnChainAction, runHypeFlowAgent step 5)
  - src/unnamed/part_007 (Move module HypeFlow::sentiment_trader)

  Numbers are modelled as rationals; JavaScript Math.round is floor (x + 1/2);
  external collaborator calls (wallet balances, price oracle, swap submission,
  ledger transaction submission) are modelled by environment records that fix
  the outcome of each call, with thrown exceptions modelled as Except.error.
-/

namespace Hyperflow

/-- JavaScript Math.round: rounds half toward positive infinity. -/
def jsRound (q : ℚ) : ℤ := ⌊q + 1/2⌋

/-- ActionType from decisionLogic (tokenTransfer.ts line 549). -/
inductive ActionType
  | BUY
  | SELL
  | DEPOSIT
  | WITHDRAW
  | HOLD
deriving DecidableEq, Repr

/-- DecisionConfig from decisionLogic (tokenTransfer.ts lines 551-558). -/
structure DecisionConfig where
  bullishThreshold : ℚ
  bearishThreshold : ℚ
  minTweetVolume : ℕ
  timeWindowMinutes : ℚ
  maxPositionSize : ℚ
  currentlyInvested : Bool
deriving DecidableEq, Repr

/-- The rationale strings built by makeDecision and adjustForDataAge are template
strings over numeric parameters; we model them as an inductive capturing which
template was used and with which parameters (text formatting such as toFixed(2)
is presentation only). -/
inductive Reason
  | insufficientData (tweetCount minTweetVolume : ℕ)
  | bullishDeposit (score threshold : ℚ)
  | bullishBuy (score threshold : ℚ)
  | bearishWithdraw (score threshold : ℚ)
  | bearishSell (score threshold : ℚ)
  | neutral (score bearish bullish : ℚ)
  | staleHold (original : Reason) (ageMinutes maxAgeMinutes : ℚ)
  | staleNote (original : Reason) (ageMinutes : ℚ)
deriving DecidableEq, Repr

/-- DecisionResult from decisionLogic (tokenTransfer.ts lines 560-565).
suggestedAmount is an optional field (undefined is modelled as none). -/
structure DecisionResult where
  action : ActionType
  confidence : ℚ
  reason : Reason
  suggestedAmount : Option ℚ
deriving DecidableEq, Repr

/-- makeDecision from decisionLogic (tokenTransfer.ts lines 574-640).
The early insufficient-data return carries no suggestedAmount field; the final
return always carries one. -/
def makeDecision (sentimentScore : ℚ) (tweetCount : ℕ) (config : DecisionConfig) :
    DecisionResult :=
  if tweetCount < config.minTweetVolume then
    { action := ActionType.HOLD
      confidence := 0
      reason := Reason.insufficientData tweetCount config.minTweetVolume
      suggestedAmount := none }
  else
    let car : ℚ × ActionType × Reason :=
      if config.bullishThreshold < sentimentScore then
        -- Bullish scenario
        let c := min ((sentimentScore - config.bullishThreshold) /
          (1 - config.bullishThreshold)) 1
        if config.currentlyInvested then
          (c, ActionType.DEPOSIT, Reason.bullishDeposit sentimentScore config.bullishThreshold)
        else
          (c, ActionType.BUY, Reason.bullishBuy sentimentScore config.bullishThreshold)
      else if sentimentScore < config.bearishThreshold then
        -- Bearish scenario
        let c := min ((config.bearishThreshold - sentimentScore) /
          (config.bearishThreshold + 1)) 1
        if config.currentlyInvested then
          (c, ActionType.WITHDRAW, Reason.bearishWithdraw sentimentScore config.bearishThreshold)
        else
          (c, ActionType.SELL, Reason.bearishSell sentimentScore config.bearishThreshold)
      else
        -- Neutral zone - hold and observe
        (1/2, ActionType.HOLD,
          Reason.neutral sentimentScore config.bearishThreshold config.bullishThreshold)
    let confidence := car.1
    let action := car.2.1
    let reason := car.2.2
    let suggestedAmount : ℚ :=
      if action ≠ ActionType.HOLD then
        ((jsRound (config.maxPositionSize * confidence) : ℤ) : ℚ)
      else 0
    { action := action
      confidence := confidence
      reason := reason
      suggestedAmount := some suggestedAmount }

/-- adjustForDataAge from decisionLogic (tokenTransfer.ts lines 649-688).
The source computes the adjusted amount with the JavaScript truthiness test
`decisionResult.suggestedAmount ? round(...) : undefined`, so an absent amount
or a present amount of exactly 0 both yield an absent adjusted amount. -/
def adjustForDataAge (decisionResult : DecisionResult)
    (dataAgeMinutes maxAgeMinutes : ℚ) : DecisionResult :=
  if dataAgeMinutes ≤ maxAgeMinutes then
    -- Data is fresh enough, no adjustment needed
    decisionResult
  else
    let ageFactor := max 0 (1 - (dataAgeMinutes - maxAgeMinutes) / (maxAgeMinutes * 3))
    let adjustedConfidence := decisionResult.confidence * ageFactor
    let adjustedAmount : Option ℚ :=
      match decisionResult.suggestedAmount with
      | some a => if a ≠ 0 then some ((jsRound (a * ageFactor) : ℤ) : ℚ) else none
      | none => none
    -- If confidence drops too low, change action to HOLD
    if adjustedConfidence < 1/5 ∧ decisionResult.action ≠ ActionType.HOLD then
      { action := ActionType.HOLD
        confidence := adjustedConfidence
        reason := Reason.staleHold decisionResult.reason dataAgeMinutes maxAgeMinutes
        suggestedAmount := some 0 }
    else
      { action := decisionResult.action
        confidence := adjustedConfidence
        reason := Reason.staleNote decisionResult.reason dataAgeMinutes
        suggestedAmount := adjustedAmount }

/-- Result statuses of recordSentimentTrade (aptos.ts lines 125-195): the three
skip-status strings and the success transaction hash. -/
inductive SentimentResult
  | skippedNoAddress
  | skippedTxError
  | skippedGeneralError
  | txHash (h : String)
deriving DecidableEq, Repr

/-- Environment for recordSentimentTrade: whether SENTIMENT_TRADER_ADDRESS is
configured, whether initMoveAgentKit succeeds (it throws when the wallet key is
missing or malformed), and the outcome of the ledger transaction submission as
a function of the two integer-scaled arguments. -/
structure LedgerEnv where
  hasTraderAddress : Bool
  agentInitOk : Bool
  txOutcome : ℤ → ℤ → Except String String

/-- recordSentimentTrade from aptos.ts lines 125-195, translated with each
try/catch explicit. The Except layer of the result represents an exception
escaping the function; every branch of the source ends in a return, so every
branch here is Except.ok. The inner catch around sendTransaction yields the
skipped-tx-error status; the outer catch (reached when initMoveAgentKit throws)
yields the skipped-general-error status. -/
def recordSentimentTrade (env : LedgerEnv) (sentimentScore confidence : ℚ) :
    Except String SentimentResult :=
  if env.hasTraderAddress = false then
    Except.ok SentimentResult.skippedNoAddress
  else if env.agentInitOk = false then
    -- outer catch: initMoveAgentKit threw
    Except.ok SentimentResult.skippedGeneralError
  else
    -- Sentiment ranges from -1 to 1, scale to 0-200 (100 being neutral)
    let sentimentInt := jsRound ((sentimentScore + 1) * 100)
    -- Confidence ranges from 0 to 1, scale to 0-100
    let confidenceInt := jsRound (confidence * 100)
    match env.txOutcome sentimentInt confidenceInt with
    | Except.error _ => Except.ok SentimentResult.skippedTxError
    | Except.ok h => Except.ok (SentimentResult.txHash h)

/-- Wallet balances as returned by getWalletBalances (aptos.ts lines 93-108),
in display units (APT is the base asset, USDC the quote asset). -/
structure Balances where
  apt : ℚ
  usdc : ℚ
deriving DecidableEq, Repr

/-- Environment for executeOnChainAction: the mock-mode flag, the environment
of the sentiment-recording call, the outcome of getWalletBalances (which throws
when the wallet collaborator fails), the price returned by getAptPrice (the
checked-in collaborator returns the constant 15.75), and the outcome of each
possible swapTokens call as a function of its arguments. -/
structure ExecEnv where
  mockMode : Bool
  ledger : LedgerEnv
  balancesOutcome : Except String Balances
  aptPrice : ℚ
  swapOutcome : String → String → ℚ → Except String String

/-- The checked-in getAptPrice collaborator (aptos.ts lines 114-118) returns a
constant mock price. -/
def getAptPriceMock : ℚ := 1575/100

/-- Observable outcome of one executeOnChainAction call: the returned boolean,
the outcome of the sentiment-recording step (none would mean its exception was
caught at the call site; the recording itself never throws), whether the wallet
balance collaborator was invoked, and the swap collaborator invocation with its
arguments, when one was made. -/
structure ExecResult where
  success : Bool
  sentiment : Option SentimentResult
  balancesQueried : Bool
  swapCalled : Option (String × String × ℚ)
deriving DecidableEq, Repr

/-- executeOnChainAction from hypeflow-agent.ts lines 123-289.
The sentiment-recording call is wrapped in its own try/catch (lines 134-146)
so its outcome never affects the trade branch. In mock mode (lines 148-178) no
balance is queried, no swap is made and the function returns true. In real
mode the inner try (lines 184-279) fetches balances and price, performs the
per-action branch, and its catch turns any thrown error into a false return. -/
def executeOnChainAction (env : ExecEnv) (action : ActionType)
    (amount confidence : ℚ) : ExecResult :=
  let sres : Option SentimentResult :=
    match recordSentimentTrade env.ledger (confidence * 2 - 1) confidence with
    | Except.ok r => some r
    | Except.error _ => none
  if env.mockMode then
    { success := true, sentiment := sres, balancesQueried := false, swapCalled := none }
  else
    match env.balancesOutcome with
    | Except.error _ =>
        -- getWalletBalances threw; caught by the inner catch, returns false
        { success := false, sentiment := sres, balancesQueried := true, swapCalled := none }
    | Except.ok balances =>
      let aptPrice := env.aptPrice
      match action with
      | ActionType.BUY =>
        -- Calculate how much USDC we need to spend
        let usdcAmount := amount * aptPrice
        if balances.usdc < usdcAmount then
          { success := false, sentiment := sres, balancesQueried := true, swapCalled := none }
        else
          match env.swapOutcome "USDC" "APT" usdcAmount with
          | Except.error _ =>
              { success := false, sentiment := sres, balancesQueried := true
                swapCalled := some ("USDC", "APT", usdcAmount) }
          | Except.ok _ =>
              { success := true, sentiment := sres, balancesQueried := true
                swapCalled := some ("USDC", "APT", usdcAmount) }
      | ActionType.SELL =>
        if balances.apt < amount then
          { success := false, sentiment := sres, balancesQueried := true, swapCalled := none }
        else
          match env.swapOutcome "APT" "USDC" amount with
          | Except.error _ =>
              { success := false, sentiment := sres, balancesQueried := true
                swapCalled := some ("APT", "USDC", amount) }
          | Except.ok _ =>
              { success := true, sentiment := sres, balancesQueried := true
                swapCalled := some ("APT", "USDC", amount) }
      | ActionType.DEPOSIT =>
        if balances.apt < amount then
          { success := false, sentiment := sres, balancesQueried := true, swapCalled := none }
        else
          -- Deposit functionality is not yet implemented: log only, no call
          { success := true, sentiment := sres, balancesQueried := true, swapCalled := none }
      | ActionType.WITHDRAW =>
          -- Withdraw functionality is not yet implemented: log only, no call
          { success := true, sentiment := sres, balancesQueried := true, swapCalled := none }
      | ActionType.HOLD =>
          { success := true, sentiment := sres, balancesQueried := true, swapCalled := none }

/-- Step 5 of runHypeFlowAgent (hypeflow-agent.ts lines 353-371): when the
adjusted decision passes the confidence gate (confidence above 0.25 and action
not HOLD), executeOnChainAction is awaited with its boolean result discarded,
and currentlyInvested is set to whether the action is BUY or DEPOSIT; otherwise
no action is executed and the flag keeps its previous value. Returns the new
flag and the execution outcome when one happened. -/
def runCycleStep (env : ExecEnv) (adjustedDecision : DecisionResult)
    (prevInvested : Bool) : Bool × Option ExecResult :=
  if 1/4 < adjustedDecision.confidence ∧ adjustedDecision.action ≠ ActionType.HOLD then
    let amount := adjustedDecision.suggestedAmount.getD 0
    let r := executeOnChainAction env adjustedDecision.action amount
      adjustedDecision.confidence
    (decide (adjustedDecision.action = ActionType.BUY ∨
      adjustedDecision.action = ActionType.DEPOSIT), some r)
  else
    (prevInvested, none)

/-- SentimentRecord from HypeFlow::sentiment_trader (part_007 lines 30-35). -/
structure SentimentRecord where
  timestamp : ℕ
  sentiment_score : ℕ
  tweet_volume : ℕ
  action_taken : String
deriving DecidableEq, Repr

/-- TradeRecord from HypeFlow::sentiment_trader (part_007 lines 38-43). -/
structure TradeRecord where
  timestamp : ℕ
  action : String
  amount : ℕ
  confidence : ℕ
deriving DecidableEq, Repr

/-- TradeEvent from HypeFlow::sentiment_trader (part_007 lines 46-52). -/
structure TradeEvent where
  timestamp : ℕ
  action : String
  amount : ℕ
  confidence : ℕ
  sentiment_score : ℕ
deriving DecidableEq, Repr

/-- aptos_std table::add: aborts (none) when the key is already present,
otherwise extends the table with the new binding. Tables are modelled as
association lists. -/
def tableAdd {α : Type} (t : List (ℕ × α)) (k : ℕ) (v : α) :
    Option (List (ℕ × α)) :=
  if t.any (fun p => p.1 == k) then none else some (t ++ [(k, v)])

/-- HypeFlowState from HypeFlow::sentiment_trader (part_007 lines 14-27); the
event handle is modelled as the list of emitted events. -/
structure HypeFlowState where
  sentiment_history : List (ℕ × SentimentRecord)
  trade_history : List (ℕ × TradeRecord)
  current_sentiment : ℕ
  is_invested : Bool
  next_record_id : ℕ
  trade_events : List TradeEvent
deriving DecidableEq, Repr

/-- update_sentiment from HypeFlow::sentiment_trader (part_007 lines 72-102).
Aborting (any failed assert or table abort) is modelled as none; Move
transactions are atomic, so an abort leaves no partial state. The timestamp is
a parameter. -/
def update_sentiment (s : HypeFlowState) (now sentiment_score tweet_volume : ℕ) :
    Option HypeFlowState :=
  let s1 := { s with current_sentiment := sentiment_score }
  match tableAdd s1.sentiment_history s1.next_record_id
      { timestamp := now, sentiment_score := sentiment_score
        tweet_volume := tweet_volume, action_taken := "PENDING" } with
  | none => none
  | some h =>
      some { s1 with sentiment_history := h, next_record_id := s1.next_record_id + 1 }

/-- execute_buy from HypeFlow::sentiment_trader (part_007 lines 105-150):
asserts the state is not invested, records one trade, emits one event, sets
is_invested and increments next_record_id. -/
def execute_buy (s : HypeFlowState) (now amount confidence : ℕ) :
    Option HypeFlowState :=
  if s.is_invested then none
  else
    match tableAdd s.trade_history s.next_record_id
        { timestamp := now, action := "BUY", amount := amount
          confidence := confidence } with
    | none => none
    | some h =>
        some { s with
          trade_history := h
          trade_events := s.trade_events ++
            [{ timestamp := now, action := "BUY", amount := amount
               confidence := confidence, sentiment_score := s.current_sentiment }]
          is_invested := true
          next_record_id := s.next_record_id + 1 }

/-- execute_sell from HypeFlow::sentiment_trader (part_007 lines 153-195):
asserts the state is invested, records one trade, emits one event, clears
is_invested and increments next_record_id. -/
def execute_sell (s : HypeFlowState) (now amount confidence : ℕ) :
    Option HypeFlowState :=
  if s.is_invested = false then none
  else
    match tableAdd s.trade_history s.next_record_id
        { timestamp := now, action := "SELL", amount := amount
          confidence := confidence } with
    | none => none
    | some h =>
        some { s with
          trade_history := h
          trade_events := s.trade_events ++
            [{ timestamp := now, action := "SELL", amount := amount
               confidence := confidence, sentiment_score := s.current_sentiment }]
          is_invested := false
          next_record_id := s.next_record_id + 1 }

/-! Concrete inputs used by witnesses and counterexamples. -/

/-- A stale, not-downgraded decision whose suggested amount is present with
value 0. -/
def decC9 : DecisionResult :=
  { action := ActionType.BUY, confidence := 1
    reason := Reason.bullishBuy 1 (2/5), suggestedAmount := some 0 }

/-- An adjusted SELL decision above the confidence gate. -/
def decC1 : DecisionResult :=
  { action := ActionType.SELL, confidence := 1/2
    reason := Reason.bearishSell (-(1/2)) (-(1/5)), suggestedAmount := some 1 }

/-- A real-mode environment whose wallet holds nothing, with every collaborator
succeeding. -/
def envC1 : ExecEnv :=
  { mockMode := false
    ledger := { hasTraderAddress := true, agentInitOk := true
                txOutcome := fun _ _ => Except.ok "sent-tx" }
    balancesOutcome := Except.ok { apt := 0, usdc := 0 }
    aptPrice := 20
    swapOutcome := fun _ _ _ => Except.ok "swap-tx" }

/-- A real-mode environment with 10 USDC, no APT, and price 20 (the spec's
insufficient-funds example). -/
def envC3 : ExecEnv :=
  { mockMode := false
    ledger := { hasTraderAddress := true, agentInitOk := true
                txOutcome := fun _ _ => Except.ok "sent-tx" }
    balancesOutcome := Except.ok { apt := 0, usdc := 10 }
    aptPrice := 20
    swapOutcome := fun _ _ _ => Except.ok "swap-tx" }

/-- A real-mode environment with an empty wallet, used to contrast DEPOSIT and
WITHDRAW. -/
def envC5 : ExecEnv :=
  { mockMode := false
    ledger := { hasTraderAddress := false, agentInitOk := true
                txOutcome := fun _ _ => Except.ok "sent-tx" }
    balancesOutcome := Except.ok { apt := 0, usdc := 0 }
    aptPrice := 20
    swapOutcome := fun _ _ _ => Except.ok "swap-tx" }

/-- The state produced by HypeFlow::sentiment_trader initialize (part_007
lines 55-69). -/
def s0 : HypeFlowState :=
  { sentiment_history := [], trade_history := [], current_sentiment := 0
    is_invested := false, next_record_id := 0, trade_events := [] }

/-! Helper lemmas about the three branches of makeDecision. -/

lemma makeDecision_confidence_bullish (s : ℚ) (tc : ℕ) (config : DecisionConfig)
    (htc : config.minTweetVolume ≤ tc) (hs : config.bullishThreshold < s) :
    (makeDecision s tc config).confidence =
      min ((s - config.bullishThreshold) / (1 - config.bullishThreshold)) 1 := by
  unfold makeDecision
  rw [if_neg (by omega), if_pos hs]
  cases hcur : config.currentlyInvested <;> simp [hcur]

lemma makeDecision_confidence_bearish (s : ℚ) (tc : ℕ) (config : DecisionConfig)
    (htc : config.minTweetVolume ≤ tc) (hs1 : ¬ config.bullishThreshold < s)
    (hs2 : s < config.bearishThreshold) :
    (makeDecision s tc config).confidence =
      min ((config.bearishThreshold - s) / (config.bearishThreshold + 1)) 1 := by
  unfold makeDecision
  rw [if_neg (by omega), if_neg hs1, if_pos hs2]
  cases hcur : config.currentlyInvested <;> simp [hcur]

lemma makeDecision_neutral (s : ℚ) (tc : ℕ) (config : DecisionConfig)
    (htc : config.minTweetVolume ≤ tc) (hs1 : ¬ config.bullishThreshold < s)
    (hs2 : ¬ s < config.bearishThreshold) :
    makeDecision s tc config =
      { action := ActionType.HOLD
        confidence := 1/2
        reason := Reason.neutral s config.bearishThreshold config.bullishThreshold
        suggestedAmount := some 0 } := by
  unfold makeDecision
  rw [if_neg (by omega), if_neg hs1, if_neg hs2]
  rfl

/-- C6: for every sentiment s with bearishThreshold ≤ s ≤ bullishThreshold
(both boundaries inclusive) and every sample count at or above the minimum
volume, makeDecision returns HOLD with confidence exactly 1/2 and suggested
amount 0. -/
theorem neutral_zone_hold (s : ℚ) (tc : ℕ) (config : DecisionConfig)
    (h1 : config.bearishThreshold ≤ s) (h2 : s ≤ config.bullishThreshold)
    (htc : config.minTweetVolume ≤ tc) :
    makeDecision s tc config =
      { action := ActionType.HOLD
        confidence := 1/2
        reason := Reason.neutral s config.bearishThreshold config.bullishThreshold
        suggestedAmount := some 0 } :=
  makeDecision_neutral s tc config htc (not_lt.mpr h2) (not_lt.mpr h1)

/-- C6 witness: the agent's own configuration, sentiment 0, two samples. -/
theorem neutral_zone_hold_witness :
    makeDecision 0 2
      { bullishThreshold := 2/5, bearishThreshold := -(1/5), minTweetVolume := 2
        timeWindowMinutes := 60, maxPositionSize := 100, currentlyInvested := false } =
      { action := ActionType.HOLD
        confidence := 1/2
        reason := Reason.neutral 0 (-(1/5)) (2/5)
        suggestedAmount := some 0 } :=
  neutral_zone_hold 0 2 _ (by norm_num) (by norm_num) (by norm_num)

/-- C7: under -1 < bearishThreshold < bullishThreshold < 1 and at least the
minimum sample volume: the confidence of every decision on a sentiment in
[-1,1] lies in [0,1]; within the bullish branch the confidence is monotone
non-decreasing in the sentiment (the distance above the bullish threshold) and
within the bearish branch it is monotone non-decreasing in the distance below
the bearish threshold; and at the extremes sentiment 1 gives confidence
exactly 1 and sentiment -1 gives confidence exactly 1. -/
theorem sentiment_confidence_shape (tc : ℕ) (config : DecisionConfig)
    (hb1 : -1 < config.bearishThreshold)
    (hb2 : config.bearishThreshold < config.bullishThreshold)
    (hb3 : config.bullishThreshold < 1)
    (htc : config.minTweetVolume ≤ tc) :
    (∀ s : ℚ, -1 ≤ s → s ≤ 1 →
      0 ≤ (makeDecision s tc config).confidence ∧
        (makeDecision s tc config).confidence ≤ 1) ∧
    (∀ s₁ s₂ : ℚ, config.bullishThreshold < s₁ → s₁ ≤ s₂ →
      (makeDecision s₁ tc config).confidence ≤ (makeDecision s₂ tc config).confidence) ∧
    (∀ s₁ s₂ : ℚ, s₂ ≤ s₁ → s₁ < config.bearishThreshold →
      (makeDecision s₁ tc config).confidence ≤ (makeDecision s₂ tc config).confidence) ∧
    (makeDecision 1 tc config).confidence = 1 ∧
    (makeDecision (-1) tc config).confidence = 1 := by
  have hdb : (0:ℚ) < 1 - config.bullishThreshold := by linarith
  have hde : (0:ℚ) < config.bearishThreshold + 1 := by linarith
  refine ⟨?_, ?_, ?_, ?_, ?_⟩
  · intro s _ _
    rcases lt_or_le config.bullishThreshold s with hs | hs
    · rw [makeDecision_confidence_bullish s tc config htc hs]
      constructor
      · exact le_min (div_nonneg (by linarith) (le_of_lt hdb)) (by norm_num)
      · exact min_le_right _ _
    · rcases lt_or_le s config.bearishThreshold with hs2 | hs2
      · rw [makeDecision_confidence_bearish s tc config htc (not_lt.mpr hs) hs2]
        constructor
        · exact le_min (div_nonneg (by linarith) (le_of_lt hde)) (by norm_num)
        · exact min_le_right _ _
      · rw [makeDecision_neutral s tc config htc (not_lt.mpr hs) (not_lt.mpr hs2)]
        norm_num
  · intro s₁ s₂ h1 h12
    rw [makeDecision_confidence_bullish s₁ tc config htc h1,
      makeDecision_confidence_bullish s₂ tc config htc (lt_of_lt_of_le h1 h12)]
    exact min_le_min (div_le_div_of_nonneg_right (by linarith) hdb.le) le_rfl
  · intro s₁ s₂ h21 h1
    have h2 : s₂ < config.bearishThreshold := lt_of_le_of_lt h21 h1
    rw [makeDecision_confidence_bearish s₁ tc config htc (by intro h; linarith) h1,
      makeDecision_confidence_bearish s₂ tc config htc (by intro h; linarith) h2]
    exact min_le_min (div_le_div_of_nonneg_right (by linarith) hde.le) le_rfl
  · rw [makeDecision_confidence_bullish 1 tc config htc hb3]
    rw [div_self (ne_of_gt hdb), min_self]
  · have hminus : (-1 : ℚ) < config.bearishThreshold := hb1
    rw [makeDecision_confidence_bearish (-1) tc config htc (by intro h; linarith) hminus]
    have : config.bearishThreshold - (-1) = config.bearishThreshold + 1 := by ring
    rw [this, div_self (ne_of_gt hde), min_self]

/-- C7 witness: the agent's configuration (-1 < -1/5 < 2/5 < 1), two samples;
projects the extreme-sentiment conclusion. -/
theorem sentiment_confidence_shape_witness :
    (makeDecision 1 2
      { bullishThreshold := 2/5, bearishThreshold := -(1/5), minTweetVolume := 2
        timeWindowMinutes := 60, maxPositionSize := 100
        currentlyInvested := false }).confidence = 1 :=
  (sentiment_confidence_shape 2 _ (by norm_num) (by norm_num) (by norm_num)
    (by norm_num)).2.2.2.1

/-- C8: in the stale branch (data older than the freshness limit), whenever the
decayed confidence falls below 1/5 and the original action was not HOLD,
adjustForDataAge returns HOLD with suggested amount 0, the decayed confidence,
and the rationale annotated with the staleness reason. -/
theorem stale_low_confidence_forces_hold (d : DecisionResult) (age maxAge : ℚ)
    (h1 : maxAge < age)
    (h2 : d.confidence * max 0 (1 - (age - maxAge) / (maxAge * 3)) < 1/5)
    (h3 : d.action ≠ ActionType.HOLD) :
    adjustForDataAge d age maxAge =
      { action := ActionType.HOLD
        confidence := d.confidence * max 0 (1 - (age - maxAge) / (maxAge * 3))
        reason := Reason.staleHold d.reason age maxAge
        suggestedAmount := some 0 } := by
  simp only [adjustForDataAge]
  rw [if_neg (not_le.mpr h1)]
  split_ifs with h
  · rfl
  · exact absurd ⟨h2, h3⟩ h

/-- C8 witness: the spec's example, a BUY at confidence 0.3 with freshness
limit 30 minutes and age 120 minutes: the age factor is 0, the decayed
confidence is 0, the action becomes HOLD with amount 0. -/
theorem stale_low_confidence_forces_hold_witness :
    adjustForDataAge
      { action := ActionType.BUY, confidence := 3/10
        reason := Reason.bullishBuy (1/2) (2/5), suggestedAmount := some 30 } 120 30 =
      { action := ActionType.HOLD, confidence := 0
        reason := Reason.staleHold (Reason.bullishBuy (1/2) (2/5)) 120 30
        suggestedAmount := some 0 } := by
  have h := stale_low_confidence_forces_hold
    { action := ActionType.BUY, confidence := 3/10
      reason := Reason.bullishBuy (1/2) (2/5), suggestedAmount := some 30 } 120 30
    (by norm_num) (by norm_num) (by decide)
  rw [h]
  norm_num

/-- C9 counterexample: at age 60 with freshness limit 30 the decision decC9 is
stale and is not downgraded (the action stays BUY), its suggested amount is
present (value 0), yet the output suggested amount is absent rather than the
claimed round(0 * ageFactor) = 0: the source drops a present-but-zero amount
because of the JavaScript truthiness test. -/
theorem age_adjustment_counterexample :
    decC9.suggestedAmount = some 0 ∧
    (adjustForDataAge decC9 60 30).action = ActionType.BUY ∧
    (adjustForDataAge decC9 60 30).confidence =
      decC9.confidence * max 0 (1 - (60 - 30) / (30 * 3)) ∧
    (adjustForDataAge decC9 60 30).suggestedAmount = none := by
  refine ⟨rfl, ?_, ?_, ?_⟩ <;> norm_num [adjustForDataAge, decC9]

/-- C9 (amended): adjustForDataAge is the identity on fresh data; on stale data
that is not downgraded to HOLD, the output confidence is the input confidence
times the age factor, and the suggested amount is multiplied by the age factor
and rounded when present with a nonzero value, but is absent when the input
amount is absent or present with value exactly 0. -/
theorem age_adjustment_formula (d : DecisionResult) (age maxAge : ℚ) :
    (age ≤ maxAge → adjustForDataAge d age maxAge = d) ∧
    (maxAge < age →
      ¬(d.confidence * max 0 (1 - (age - maxAge) / (maxAge * 3)) < 1/5 ∧
          d.action ≠ ActionType.HOLD) →
      adjustForDataAge d age maxAge =
        { action := d.action
          confidence := d.confidence * max 0 (1 - (age - maxAge) / (maxAge * 3))
          reason := Reason.staleNote d.reason age
          suggestedAmount :=
            match d.suggestedAmount with
            | some a =>
                if a ≠ 0 then
                  some ((jsRound (a * max 0 (1 - (age - maxAge) / (maxAge * 3))) : ℤ) : ℚ)
                else none
            | none => none }) := by
  constructor
  · intro h
    unfold adjustForDataAge
    rw [if_pos h]
  · intro h hnot
    simp only [adjustForDataAge]
    rw [if_neg (not_le.mpr h), if_neg hnot]

/-- C9 witness: a SELL at confidence 0.9 with amount 50, age 60, limit 30: the
age factor is 2/3, the confidence becomes 0.6, the amount becomes round(100/3)
= 33. -/
theorem age_adjustment_formula_witness :
    adjustForDataAge
      { action := ActionType.SELL, confidence := 9/10
        reason := Reason.bearishSell (-(1/2)) (-(1/5)), suggestedAmount := some 50 } 60 30 =
      { action := ActionType.SELL, confidence := 3/5
        reason := Reason.staleNote (Reason.bearishSell (-(1/2)) (-(1/5))) 60
        suggestedAmount := some 33 } := by
  have h := (age_adjustment_formula
    { action := ActionType.SELL, confidence := 9/10
      reason := Reason.bearishSell (-(1/2)) (-(1/5)), suggestedAmount := some 50 } 60 30).2
    (by norm_num) (by norm_num [jsRound])
  rw [h]
  norm_num [jsRound]

/-! Helper lemmas about the execution pipeline. -/

lemma recordSentimentTrade_total (env : LedgerEnv) (s c : ℚ) :
    ∃ r, recordSentimentTrade env s c = Except.ok r := by
  unfold recordSentimentTrade
  split_ifs
  · exact ⟨_, rfl⟩
  · exact ⟨_, rfl⟩
  · cases hx : env.txOutcome (jsRound ((s + 1) * 100)) (jsRound (c * 100)) with
    | error e => exact ⟨SentimentResult.skippedTxError, by simp [hx]⟩
    | ok h => exact ⟨SentimentResult.txHash h, by simp [hx]⟩

lemma executeOnChainAction_sentiment (env : ExecEnv) (action : ActionType)
    (amount confidence : ℚ) :
    (executeOnChainAction env action amount confidence).sentiment =
      match recordSentimentTrade env.ledger (confidence * 2 - 1) confidence with
      | Except.ok r => some r
      | Except.error _ => none := by
  obtain ⟨m, led, bo, price, swap⟩ := env
  cases m
  · cases bo with
    | error e => rfl
    | ok b =>
      cases action
      · by_cases hc : b.usdc < amount * price
        · simp [executeOnChainAction, hc]
        · cases hsw : swap "USDC" "APT" (amount * price) <;>
            simp [executeOnChainAction, hc, hsw]
      · by_cases hc : b.apt < amount
        · simp [executeOnChainAction, hc]
        · cases hsw : swap "APT" "USDC" amount <;>
            simp [executeOnChainAction, hc, hsw]
      · by_cases hc : b.apt < amount <;> simp [executeOnChainAction, hc]
      · rfl
      · rfl
  · rfl

lemma executeOnChainAction_trade_ignores_ledger (env : ExecEnv) (l : LedgerEnv)
    (action : ActionType) (amount confidence : ℚ) :
    (executeOnChainAction { env with ledger := l } action amount confidence).success =
      (executeOnChainAction env action amount confidence).success ∧
    (executeOnChainAction { env with ledger := l } action amount confidence).swapCalled =
      (executeOnChainAction env action amount confidence).swapCalled ∧
    (executeOnChainAction { env with ledger := l } action amount confidence).balancesQueried =
      (executeOnChainAction env action amount confidence).balancesQueried := by
  obtain ⟨m, led, bo, price, swap⟩ := env
  cases m
  · cases bo with
    | error e => exact ⟨rfl, rfl, rfl⟩
    | ok b =>
      cases action
      · by_cases hc : b.usdc < amount * price
        · refine ⟨?_, ?_, ?_⟩ <;> simp [executeOnChainAction, hc]
        · cases hsw : swap "USDC" "APT" (amount * price) <;>
            refine ⟨?_, ?_, ?_⟩ <;> simp [executeOnChainAction, hc, hsw]
      · by_cases hc : b.apt < amount
        · refine ⟨?_, ?_, ?_⟩ <;> simp [executeOnChainAction, hc]
        · cases hsw : swap "APT" "USDC" amount <;>
            refine ⟨?_, ?_, ?_⟩ <;> simp [executeOnChainAction, hc, hsw]
      · by_cases hc : b.apt < amount <;>
          refine ⟨?_, ?_, ?_⟩ <;> simp [executeOnChainAction, hc]
      · exact ⟨rfl, rfl, rfl⟩
      · exact ⟨rfl, rfl, rfl⟩
  · exact ⟨rfl, rfl, rfl⟩

lemma executeOnChainAction_mock (env : ExecEnv) (action : ActionType)
    (amount confidence : ℚ) (hm : env.mockMode = true) :
    executeOnChainAction env action amount confidence =
      { success := true
        sentiment :=
          match recordSentimentTrade env.ledger (confidence * 2 - 1) confidence with
          | Except.ok r => some r
          | Except.error _ => none
        balancesQueried := false
        swapCalled := none } := by
  unfold executeOnChainAction
  rw [if_pos hm]

/-- C1 counterexample: in a real-mode environment with an empty wallet, the
adjusted SELL decision passes the confidence gate, executeOnChainAction fails
(returns false: insufficient APT), yet the cycle still overwrites
currentlyInvested from true to false instead of retaining the previous value. -/
theorem invested_flag_counterexample :
    ((runCycleStep envC1 decC1 true).2.map ExecResult.success) = some false ∧
    (runCycleStep envC1 decC1 true).1 = false := by
  have hgate : (1/4 : ℚ) < decC1.confidence ∧ decC1.action ≠ ActionType.HOLD :=
    ⟨by norm_num [decC1], by decide⟩
  unfold runCycleStep
  rw [if_pos hgate]
  constructor
  · norm_num [executeOnChainAction, recordSentimentTrade, envC1, decC1]
  · decide

/-- C1 (amended): whenever the adjusted decision passes the confidence gate
(confidence above 1/4 and action not HOLD), the cycle sets currentlyInvested to
whether the action is BUY or DEPOSIT, unconditionally on the result of
executeOnChainAction; when the gate fails the flag retains its previous value
and nothing is executed. -/
theorem invested_flag_unconditional (env : ExecEnv) (d : DecisionResult) (prev : Bool) :
    (1/4 < d.confidence ∧ d.action ≠ ActionType.HOLD →
      (runCycleStep env d prev).1 =
        decide (d.action = ActionType.BUY ∨ d.action = ActionType.DEPOSIT) ∧
      (runCycleStep env d prev).2 =
        some (executeOnChainAction env d.action (d.suggestedAmount.getD 0) d.confidence)) ∧
    (¬(1/4 < d.confidence ∧ d.action ≠ ActionType.HOLD) →
      (runCycleStep env d prev).1 = prev ∧ (runCycleStep env d prev).2 = none) := by
  constructor <;> intro h
  · unfold runCycleStep
    rw [if_pos h]
    exact ⟨rfl, rfl⟩
  · unfold runCycleStep
    rw [if_neg h]
    exact ⟨rfl, rfl⟩

/-- C1 witness: the failed SELL cycle of the counterexample environment, via
the amended theorem. -/
theorem invested_flag_unconditional_witness :
    (runCycleStep envC1 decC1 true).1 = false := by
  have h := (invested_flag_unconditional envC1 decC1 true).1
    (by constructor
        · norm_num [decC1]
        · decide)
  rw [h.1]
  decide

/-- C2 counterexample: with identical inputs (an insufficiently funded BUY),
the mock mode returns true and never queries balances while the real mode
queries balances and returns false, so the two modes agree neither on the
success boolean nor on the balance-check step. -/
theorem mock_real_divergence_counterexample :
    (executeOnChainAction { envC3 with mockMode := true } ActionType.BUY 1 (1/2)).success
      = true ∧
    (executeOnChainAction { envC3 with mockMode := false } ActionType.BUY 1 (1/2)).success
      = false ∧
    (executeOnChainAction { envC3 with mockMode := true }
      ActionType.BUY 1 (1/2)).balancesQueried = false ∧
    (executeOnChainAction { envC3 with mockMode := false }
      ActionType.BUY 1 (1/2)).balancesQueried = true := by
  refine ⟨?_, ?_, ?_, ?_⟩ <;>
    norm_num [executeOnChainAction, recordSentimentTrade, envC3]

/-- C2 (amended): for identical inputs the mock mode attempts the same
sentiment ledger write as the real mode (same outcome), but it always returns
true, never queries the balance collaborator and never invokes the swap
collaborator; only the real mode performs balance checks and swaps. -/
theorem mock_mode_behavior (env : ExecEnv) (action : ActionType)
    (amount confidence : ℚ) :
    (executeOnChainAction { env with mockMode := true } action amount confidence).sentiment =
      (executeOnChainAction { env with mockMode := false } action amount confidence).sentiment ∧
    (executeOnChainAction { env with mockMode := true } action amount confidence).success
      = true ∧
    (executeOnChainAction { env with mockMode := true }
      action amount confidence).balancesQueried = false ∧
    (executeOnChainAction { env with mockMode := true } action amount confidence).swapCalled
      = none := by
  refine ⟨?_, ?_, ?_, ?_⟩
  · rw [executeOnChainAction_sentiment, executeOnChainAction_sentiment]
  · rw [executeOnChainAction_mock { env with mockMode := true } action amount confidence rfl]
  · rw [executeOnChainAction_mock { env with mockMode := true } action amount confidence rfl]
  · rw [executeOnChainAction_mock { env with mockMode := true } action amount confidence rfl]

/-- C3: in real mode with a successfully fetched balance snapshot, a BUY whose
required quote amount (amount times price) exceeds the USDC balance returns
false without invoking the swap collaborator, and a SELL whose amount exceeds
the APT balance does the same. -/
theorem preflight_insufficient_funds (env : ExecEnv) (b : Balances)
    (amount confidence : ℚ)
    (hm : env.mockMode = false) (hb : env.balancesOutcome = Except.ok b) :
    (b.usdc < amount * env.aptPrice →
      (executeOnChainAction env ActionType.BUY amount confidence).success = false ∧
      (executeOnChainAction env ActionType.BUY amount confidence).swapCalled = none) ∧
    (b.apt < amount →
      (executeOnChainAction env ActionType.SELL amount confidence).success = false ∧
      (executeOnChainAction env ActionType.SELL amount confidence).swapCalled = none) := by
  constructor <;> intro hlt <;>
    simp [executeOnChainAction, hm, hb, hlt]

/-- C3 witness: the spec's example, balances 10 USDC and 0 APT at price 20:
buying 1 APT needs 20 USDC and fails pre-flight; selling 1 APT fails the same
way. -/
theorem preflight_insufficient_funds_witness :
    (executeOnChainAction envC3 ActionType.BUY 1 (1/2)).success = false ∧
    (executeOnChainAction envC3 ActionType.BUY 1 (1/2)).swapCalled = none ∧
    (executeOnChainAction envC3 ActionType.SELL 1 (1/2)).success = false ∧
    (executeOnChainAction envC3 ActionType.SELL 1 (1/2)).swapCalled = none := by
  have h := preflight_insufficient_funds envC3 { apt := 0, usdc := 10 } 1 (1/2) rfl rfl
  have h1 := h.1 (by norm_num [envC3])
  have h2 := h.2 (by norm_num)
  exact ⟨h1.1, h1.2, h2.1, h2.2⟩

/-- C4: recordSentimentTrade never throws past its boundary (its translation
always returns Except.ok); its result distinguishes the unconfigured-ledger
skip from the failed-submission skip from success; and the trade outcome of
executeOnChainAction (success, swap invocation, balance query) is the same for
every outcome of the sentiment write. -/
theorem sentiment_recording_isolated :
    (∀ (env : LedgerEnv) (s c : ℚ), ∃ r, recordSentimentTrade env s c = Except.ok r) ∧
    (∀ (env : LedgerEnv) (s c : ℚ),
      (env.hasTraderAddress = false →
        recordSentimentTrade env s c = Except.ok SentimentResult.skippedNoAddress) ∧
      (env.hasTraderAddress = true → env.agentInitOk = false →
        recordSentimentTrade env s c = Except.ok SentimentResult.skippedGeneralError) ∧
      (∀ e, env.hasTraderAddress = true → env.agentInitOk = true →
        env.txOutcome (jsRound ((s + 1) * 100)) (jsRound (c * 100)) = Except.error e →
        recordSentimentTrade env s c = Except.ok SentimentResult.skippedTxError) ∧
      (∀ h, env.hasTraderAddress = true → env.agentInitOk = true →
        env.txOutcome (jsRound ((s + 1) * 100)) (jsRound (c * 100)) = Except.ok h →
        recordSentimentTrade env s c = Except.ok (SentimentResult.txHash h))) ∧
    (∀ (env : ExecEnv) (l₁ l₂ : LedgerEnv) (action : ActionType) (amount confidence : ℚ),
      (executeOnChainAction { env with ledger := l₁ } action amount confidence).success =
        (executeOnChainAction { env with ledger := l₂ } action amount confidence).success ∧
      (executeOnChainAction { env with ledger := l₁ } action amount confidence).swapCalled =
        (executeOnChainAction { env with ledger := l₂ } action amount confidence).swapCalled ∧
      (executeOnChainAction { env with ledger := l₁ }
          action amount confidence).balancesQueried =
        (executeOnChainAction { env with ledger := l₂ }
          action amount confidence).balancesQueried) := by
  refine ⟨recordSentimentTrade_total, ?_, ?_⟩
  · intro env s c
    refine ⟨?_, ?_, ?_, ?_⟩
    · intro ha
      unfold recordSentimentTrade
      rw [if_pos ha]
    · intro ha hi
      unfold recordSentimentTrade
      rw [if_neg (by simp [ha]), if_pos hi]
    · intro e ha hi hx
      unfold recordSentimentTrade
      rw [if_neg (by simp [ha]), if_neg (by simp [hi])]
      simp only [hx]
    · intro h ha hi hx
      unfold recordSentimentTrade
      rw [if_neg (by simp [ha]), if_neg (by simp [hi])]
      simp only [hx]
  · intro env l₁ l₂ action amount confidence
    have h₁ := executeOnChainAction_trade_ignores_ledger env l₁ action amount confidence
    have h₂ := executeOnChainAction_trade_ignores_ledger env l₂ action amount confidence
    exact ⟨h₁.1.trans h₂.1.symm, h₁.2.1.trans h₂.2.1.symm, h₁.2.2.trans h₂.2.2.symm⟩

/-- C4 witness: an unconfigured ledger address yields the no-address skip
status, and the two executions differing only in the sentiment outcome (one
with the address configured, one without) agree on the trade outcome. -/
theorem sentiment_recording_isolated_witness :
    recordSentimentTrade
      { hasTraderAddress := false, agentInitOk := true
        txOutcome := fun _ _ => Except.ok "sent-tx" } 0 (1/2) =
      Except.ok SentimentResult.skippedNoAddress ∧
    (executeOnChainAction { envC1 with ledger := envC1.ledger }
        ActionType.SELL 1 (1/2)).success =
      (executeOnChainAction { envC1 with ledger := envC5.ledger }
        ActionType.SELL 1 (1/2)).success := by
  constructor
  · exact (sentiment_recording_isolated.2.1
      { hasTraderAddress := false, agentInitOk := true
        txOutcome := fun _ _ => Except.ok "sent-tx" } 0 (1/2)).1 rfl
  · exact (sentiment_recording_isolated.2.2 envC1 envC1.ledger envC5.ledger
      ActionType.SELL 1 (1/2)).1

/-- C5 counterexample: in real mode with an empty wallet, a DEPOSIT of 5 fails
the APT balance check, but a WITHDRAW of 5 performs no balance check at all
and returns success, contradicting the claim that every WITHDRAW performs the
SELL-equivalent balance check. -/
theorem deposit_withdraw_counterexample :
    (executeOnChainAction envC5 ActionType.DEPOSIT 5 (1/2)).success = false ∧
    (executeOnChainAction envC5 ActionType.WITHDRAW 5 (1/2)).success = true ∧
    (executeOnChainAction envC5 ActionType.WITHDRAW 5 (1/2)).swapCalled = none := by
  refine ⟨?_, ?_, ?_⟩ <;>
    norm_num [executeOnChainAction, recordSentimentTrade, envC5]

/-- C5 (amended): in real mode, a DEPOSIT performs the SELL-equivalent balance
check (failing with false when the APT balance is below the amount) and
otherwise returns success without invoking any external protocol; a WITHDRAW
performs no balance check and always returns success without invoking any
external protocol, the yield-protocol call being unimplemented in both. -/
theorem deposit_withdraw_placeholder (env : ExecEnv) (b : Balances)
    (amount confidence : ℚ)
    (hm : env.mockMode = false) (hb : env.balancesOutcome = Except.ok b) :
    (b.apt < amount →
      (executeOnChainAction env ActionType.DEPOSIT amount confidence).success = false ∧
      (executeOnChainAction env ActionType.DEPOSIT amount confidence).swapCalled = none) ∧
    (¬ b.apt < amount →
      (executeOnChainAction env ActionType.DEPOSIT amount confidence).success = true ∧
      (executeOnChainAction env ActionType.DEPOSIT amount confidence).swapCalled = none) ∧
    ((executeOnChainAction env ActionType.WITHDRAW amount confidence).success = true ∧
      (executeOnChainAction env ActionType.WITHDRAW amount confidence).swapCalled = none) := by
  refine ⟨?_, ?_, ?_⟩
  · intro hlt
    simp [executeOnChainAction, hm, hb, hlt]
  · intro hge
    simp [executeOnChainAction, hm, hb, hge]
  · simp [executeOnChainAction, hm, hb]

/-- C5 witness: the empty-wallet environment with amount 0: the DEPOSIT check
passes and both DEPOSIT and WITHDRAW return success with no swap call. -/
theorem deposit_withdraw_placeholder_witness :
    (executeOnChainAction envC5 ActionType.DEPOSIT 0 (1/2)).success = true ∧
    (executeOnChainAction envC5 ActionType.WITHDRAW 0 (1/2)).success = true ∧
    (executeOnChainAction envC5 ActionType.WITHDRAW 0 (1/2)).swapCalled = none := by
  have h := deposit_withdraw_placeholder envC5 { apt := 0, usdc := 0 } 0 (1/2) rfl rfl
  exact ⟨(h.2.1 (by norm_num)).1, h.2.2.1, h.2.2.2⟩

/-! Helper lemma about the on-chain ledger tables. -/

lemma tableAdd_of_not_mem {α : Type} (t : List (ℕ × α)) (k : ℕ) (v : α)
    (h : ∀ p ∈ t, p.1 ≠ k) : tableAdd t k v = some (t ++ [(k, v)]) := by
  unfold tableAdd
  rw [if_neg]
  simp only [List.any_eq_true, beq_iff_eq, not_exists]
  intro p
  rw [not_and]
  exact h p

/-- C10: in the on-chain ledger state machine, execute_buy aborts exactly when
the state is Invested, and otherwise appends exactly one trade record, emits
exactly one trade event, sets is_invested and increments next_record_id by
one; execute_sell aborts exactly when the state is NotInvested and otherwise
does the symmetric update clearing is_invested; and update_sentiment never
changes is_invested. The successful cases assume the fresh-key well-formedness
that holds in every reachable state (next_record_id unused in the table). -/
theorem ledger_state_machine :
    (∀ (s : HypeFlowState) (now amount confidence : ℕ),
      s.is_invested = true → execute_buy s now amount confidence = none) ∧
    (∀ (s : HypeFlowState) (now amount confidence : ℕ),
      s.is_invested = false →
      (∀ p ∈ s.trade_history, p.1 ≠ s.next_record_id) →
      execute_buy s now amount confidence = some
        { s with
          trade_history := s.trade_history ++
            [(s.next_record_id,
              { timestamp := now, action := "BUY", amount := amount
                confidence := confidence })]
          trade_events := s.trade_events ++
            [{ timestamp := now, action := "BUY", amount := amount
               confidence := confidence, sentiment_score := s.current_sentiment }]
          is_invested := true
          next_record_id := s.next_record_id + 1 }) ∧
    (∀ (s : HypeFlowState) (now amount confidence : ℕ),
      s.is_invested = false → execute_sell s now amount confidence = none) ∧
    (∀ (s : HypeFlowState) (now amount confidence : ℕ),
      s.is_invested = true →
      (∀ p ∈ s.trade_history, p.1 ≠ s.next_record_id) →
      execute_sell s now amount confidence = some
        { s with
          trade_history := s.trade_history ++
            [(s.next_record_id,
              { timestamp := now, action := "SELL", amount := amount
                confidence := confidence })]
          trade_events := s.trade_events ++
            [{ timestamp := now, action := "SELL", amount := amount
               confidence := confidence, sentiment_score := s.current_sentiment }]
          is_invested := false
          next_record_id := s.next_record_id + 1 }) ∧
    (∀ (s : HypeFlowState) (now score vol : ℕ) (s₂ : HypeFlowState),
      update_sentiment s now score vol = some s₂ → s₂.is_invested = s.is_invested) := by
  refine ⟨?_, ?_, ?_, ?_, ?_⟩
  · intro s now amount confidence h
    unfold execute_buy
    rw [if_pos h]
  · intro s now amount confidence h hw
    unfold execute_buy
    rw [if_neg (by simp [h]), tableAdd_of_not_mem _ _ _ hw]
  · intro s now amount confidence h
    unfold execute_sell
    rw [if_pos h]
  · intro s now amount confidence h hw
    unfold execute_sell
    rw [if_neg (by simp [h]), tableAdd_of_not_mem _ _ _ hw]
  · intro s now score vol s₂ h
    unfold update_sentiment at h
    dsimp only at h
    rcases htb : tableAdd s.sentiment_history s.next_record_id
        { timestamp := now, sentiment_score := score
          tweet_volume := vol, action_taken := "PENDING" } with _ | hlist
    · rw [htb] at h
      simp at h
    · rw [htb] at h
      simp only [Option.some_inj] at h
      rw [← h]

/-- C10 witness: a BUY from the freshly initialized state appends its record,
emits its event, marks the state invested and advances the record counter. -/
theorem ledger_state_machine_witness :
    execute_buy s0 5 10 80 = some
      { sentiment_history := []
        trade_history := [(0, { timestamp := 5, action := "BUY", amount := 10
                                confidence := 80 })]
        current_sentiment := 0
        is_invested := true
        next_record_id := 1
        trade_events := [{ timestamp := 5, action := "BUY", amount := 10
                           confidence := 80, sentiment_score := 0 }] } := by
  have h := ledger_state_machine.2.1 s0 5 10 80 rfl (by simp [s0])
  rw [h]
  rfl

end Hyperflow
